import Mathlib

/-!
Verification of the ADPRO flight-data analysis core.

The development shallowly embeds the core logic of the repository:

* `distance_geo` — the geodesic distance wrapper of
  `python_files/distance_airports.py` (the underlying ellipsoidal
  computation of `geopy` is an external collaborator, modelled as an
  oracle returning `Except`);
* `clean_datasets` / `merge_datasets_method` — the in-place column
  cleanup and two-hop left join of `Airplane.merge_datasets` in
  `python_files/class_airplane.py` (lines 129–195), with the column-drop
  phase modelled at the level of column-name lists (pandas raises on
  dropping a missing label) and the join modelled row by row;
* `distance_analysis` / `ensure_distance` — the distance-column
  annotation of `Airplane.distance_analysis` (lines 251–259) and the
  column-exists guard at lines 403–404;
* `classifyStep` / `classifyRoutes` / `plot_flights_by_country` — the
  route classification loop and emissions arithmetic of
  `Airplane.plot_flights_by_country` (lines 385–541).

Machine floats are modelled as rationals; pandas nulls as `Option`;
Python exceptions as `Except`; the diagnostic channel (stdout prints)
as an explicit list of messages or a constructor of the result type.
-/

namespace Adpro

/-! ## distance_airports.py -/

/-- The diagnostic message printed by `distance_geo` when the geodesic
computation raises (line 27 of `distance_airports.py`). -/
def errorMessage (exc : String) : String := "An error occurred: " ++ exc

/-- Model of `distance_geo` (`distance_airports.py`, lines 8–29).  The
external `geopy.distance.geodesic(...).km` call is an oracle `geodesic`
that either returns a value or raises; `distance_geo` wraps it in
`try/except`, printing a diagnostic and falling back to `0` on any
failure.  The second component of the result collects the printed
diagnostics; the function is total, so no exception ever reaches the
caller. -/
def distance_geo (geodesic : ℚ → ℚ → ℚ → ℚ → Except String ℚ)
    (latitude_source longitude_source latitude_destination longitude_destination : ℚ) :
    ℚ × List String :=
  match geodesic latitude_source longitude_source latitude_destination longitude_destination with
  | .ok geoval => (geoval, [])
  | .error exc => (0, [errorMessage exc])

/-! ## merge_datasets: the in-place column cleanup (lines 134–146)

The cleanup phase of `Airplane.merge_datasets` drops the first column of
each stored table and the `Type` and `Source` columns of the airports
table, reassigning the stored tables in place.  pandas raises
`IndexError` when indexing column 0 of a table with no columns and
`KeyError` when `drop` is given a label that is not present, so the
phase is modelled on the lists of column names of the four tables. -/

/-- Column-name lists of the four raw tables stored on an `Airplane`
object. -/
structure RawTables where
  airlines_cols : List String
  airports_cols : List String
  routes_cols : List String
  airplanes_cols : List String
deriving DecidableEq

/-- Model of `df.drop(df.columns[0], axis=1)`: dropping the first column raises
`IndexError` when the table has no columns. -/
def dropFirstColumn (cols : List String) : Except String (List String) :=
  match cols with
  | [] => .error "IndexError: index 0 is out of bounds"
  | _ :: rest => .ok rest

/-- Model of `df.drop(names, axis=1)`: pandas raises `KeyError` unless every
requested label is present. -/
def dropNamedColumns (names : List String) (cols : List String) :
    Except String (List String) :=
  if names.all (fun n => cols.contains n) then
    .ok (cols.filter (fun c => !(names.contains c)))
  else
    .error "KeyError: columns not found in axis"

/-- Model of the cleanup statements of `merge_datasets`
(`class_airplane.py`, lines 134–146), in source order: first column of
airlines, first column of airports, the `Type` and `Source` columns of
airports, first column of routes, first column of airplanes.  The first
failure propagates, as the corresponding pandas call raises. -/
def clean_datasets (t : RawTables) : Except String RawTables :=
  match dropFirstColumn t.airlines_cols with
  | .error e => .error e
  | .ok airlines =>
    match dropFirstColumn t.airports_cols with
    | .error e => .error e
    | .ok airports1 =>
      match dropNamedColumns ["Type", "Source"] airports1 with
      | .error e => .error e
      | .ok airports =>
        match dropFirstColumn t.routes_cols with
        | .error e => .error e
        | .ok routes =>
          match dropFirstColumn t.airplanes_cols with
          | .error e => .error e
          | .ok airplanes => .ok ⟨airlines, airports, routes, airplanes⟩

/-! ## merge_datasets: the two-hop left join (lines 148–195) -/

/-- A row of the airports table after cleanup (`class_airplane.py` uses
`IATA`, `Country`, `Latitude`, `Longitude`; the country may be null in
the data, which matters for the `dropna` filter). -/
structure Airport where
  iata : String
  name : String
  city : String
  country : Option String
  latitude : ℚ
  longitude : ℚ
deriving DecidableEq

/-- A row of the routes table after cleanup, restricted to the columns
that survive into the merge output. -/
structure Route where
  sourceAirport : String
  destinationAirport : String
  equipment : String
deriving DecidableEq

/-- A row of `merge_df_1` = `pd.merge(airports_df, routes_df,
left_on="IATA", right_on="Source airport", how="left")`: an airport row
together with an optional matched route (null route columns when the
airport has no outgoing route). -/
structure Merge1Row where
  airport : Airport
  route : Option Route
deriving DecidableEq

/-- A row of the second merge: additionally carries the optional
destination airport matched on `Destination airport = IATA`. -/
structure Merge2Row where
  airport : Airport
  route : Option Route
  destination : Option Airport
deriving DecidableEq

/-- The `Source country` column of the merged table (renamed from the
left airports table's `Country`, line 157). -/
def Merge2Row.sourceCountry (x : Merge2Row) : Option String :=
  x.airport.country

/-- The `Destination country` column of the merged table (renamed from
the right airports projection's `Country`, line 173); null when the
destination airport was not matched or its country is null. -/
def Merge2Row.destinationCountry (x : Merge2Row) : Option String :=
  x.destination.bind Airport.country

/-- First merge (lines 148–154): a left join keeps every airports row,
replicated once per route whose `Source airport` equals the airport's
`IATA`, or once with null route columns when no route matches.  A route
whose source code matches no airport contributes nothing. -/
def merge_df_1 (airports_df : List Airport) (routes_df : List Route) :
    List Merge1Row :=
  airports_df.flatMap fun a =>
    let matching := routes_df.filter fun r => r.sourceAirport == a.iata
    if matching.isEmpty then [⟨a, none⟩]
    else matching.map fun r => ⟨a, some r⟩

/-- Second merge (lines 163–169): left join of `merge_df_1` against the
airports projection on `Destination airport = IATA`.  A null
`Destination airport` (pandas `NaN`) matches nothing. -/
def merge_df_2 (m1 : List Merge1Row) (airports_df : List Airport) :
    List Merge2Row :=
  m1.flatMap fun x =>
    match x.route with
    | none => [⟨x.airport, none, none⟩]
    | some r =>
      let matching := airports_df.filter fun a2 => a2.iata == r.destinationAirport
      if matching.isEmpty then [⟨x.airport, some r, none⟩]
      else matching.map fun a2 => ⟨x.airport, some r, some a2⟩

/-- The merge pipeline of `merge_datasets` on cleaned tables (lines
148–195): two left joins followed by
`dropna(subset=["Source country", "Destination country"])` (line 178).
The subsequent `drop` of auxiliary columns (lines 180–191) only removes
columns not modelled here and is the identity on the modelled ones. -/
def merge_datasets (airports_df : List Airport) (routes_df : List Route) :
    List Merge2Row :=
  (merge_df_2 (merge_df_1 airports_df routes_df) airports_df).filter
    fun x => x.sourceCountry.isSome && x.destinationCountry.isSome

/-- An `Airplane` object as far as `merge_datasets` is concerned: the
column lists of the four stored tables (for the raising cleanup phase)
and the row contents of the airports and routes tables (for the join). -/
structure AirplaneObj where
  cols : RawTables
  airports_rows : List Airport
  routes_rows : List Route
deriving DecidableEq

/-- Model of a full `merge_datasets` invocation: the in-place cleanup of
the stored tables (which may raise), then the pure merge; returns the
updated object together with the merged table. -/
def merge_datasets_method (o : AirplaneObj) :
    Except String (AirplaneObj × List Merge2Row) :=
  match clean_datasets o.cols with
  | .error e => .error e
  | .ok cols' =>
    .ok ({ o with cols := cols' }, merge_datasets o.airports_rows o.routes_rows)

/-! ## The merged table, distance annotation and route classifier -/

/-- A row of `self.merge_df` as consumed downstream of the merge: the
columns read by `distance_analysis` and `plot_flights_by_country`. -/
structure MergedRow where
  sourceAirport : String
  destinationAirport : String
  sourceCountry : String
  destinationCountry : String
  latitude_source : ℚ
  longitude_source : ℚ
  latitude_destination : ℚ
  longitude_destination : ℚ
  equipment : String
deriving DecidableEq

/-- The merged table together with its optional `distance` column (a
pandas column either exists for all rows or for none, so it is a
table-level `Option`; when present it is positionally aligned with the
rows). -/
structure MergedTable where
  rows : List MergedRow
  distanceCol : Option (List ℚ)
deriving DecidableEq

/-- Model of `Airplane.distance_analysis` (lines 251–259): assigns
`merge_df["distance"] = merge_df.apply(lambda row: distance_geo(...))`,
unconditionally recomputing the column from the row coordinates.  The
rows themselves are untouched; the histogram built afterwards is
presentation only. -/
def distance_analysis (geodesic : ℚ → ℚ → ℚ → ℚ → Except String ℚ)
    (t : MergedTable) : MergedTable :=
  { rows := t.rows,
    distanceCol := some (t.rows.map fun row =>
      (distance_geo geodesic row.latitude_source row.longitude_source
        row.latitude_destination row.longitude_destination).1) }

/-- The guard at lines 403–404 of `plot_flights_by_country`:
`if "distance" not in self.merge_df.columns: self.distance_analysis()`.
This is the DistanceAnnotator of the specification: recompute only when
the `distance` column is absent. -/
def ensure_distance (geodesic : ℚ → ℚ → ℚ → ℚ → Except String ℚ)
    (t : MergedTable) : MergedTable :=
  if t.distanceCol.isSome then t else distance_analysis geodesic t

/-- Model of `tuple(sorted([row["Source airport"], row["Destination airport"]]))`
(lines 430–432 / 485–487): the unordered pair of endpoint codes in
canonical (lexicographically sorted) form. -/
def round_trip_airports (row : MergedRow) : String × String :=
  (min row.sourceAirport row.destinationAirport,
   max row.sourceAirport row.destinationAirport)

/-- The loop state of the classification pass: the two accumulators, the
`no_double_routes` set (as the list of keys in insertion order, most
recent first) and the routes drawn so far, each with its line color. -/
structure ClassState where
  total_short_haul_distance : ℚ
  no_double_routes : List (String × String)
  short_haul_count : ℕ
  plotted : List (MergedRow × String)
deriving DecidableEq

/-- The initial loop state (lines 425–427 / 480–482). -/
def initState : ClassState := ⟨0, [], 0, []⟩

/-- One iteration of the classification loop (lines 429–454 / 484–509)
over a row paired with its `distance` value: rows whose unordered pair
is already in `no_double_routes` are skipped entirely; otherwise a row
at or below the cutoff accumulates distance and count, adds its pair to
the set, and is drawn in `"tomato"`, while a row above the cutoff is
drawn in `"midnightblue"` without touching the accumulators or the
set. -/
def classifyStep (cutoff_distance : ℚ) (st : ClassState)
    (rd : MergedRow × ℚ) : ClassState :=
  let key := round_trip_airports rd.1
  if key ∈ st.no_double_routes then st
  else if rd.2 ≤ cutoff_distance then
    { total_short_haul_distance := st.total_short_haul_distance + rd.2,
      no_double_routes := key :: st.no_double_routes,
      short_haul_count := st.short_haul_count + 1,
      plotted := st.plotted ++ [(rd.1, "tomato")] }
  else
    { st with plotted := st.plotted ++ [(rd.1, "midnightblue")] }

/-- The classification loop run from an arbitrary state. -/
def classifyRoutesFrom (cutoff_distance : ℚ) (st : ClassState)
    (rowsD : List (MergedRow × ℚ)) : ClassState :=
  rowsD.foldl (classifyStep cutoff_distance) st

/-- The classification loop as executed by `plot_flights_by_country`,
from the initial state. -/
def classifyRoutes (cutoff_distance : ℚ) (rowsD : List (MergedRow × ℚ)) :
    ClassState :=
  classifyRoutesFrom cutoff_distance initState rowsD

/-- The rows of the table paired with their distance values, after the
annotation guard has run. -/
def annotated_rows (geodesic : ℚ → ℚ → ℚ → ℚ → Except String ℚ)
    (t : MergedTable) : List (MergedRow × ℚ) :=
  let t' := ensure_distance geodesic t
  t'.rows.zip (t'.distanceCol.getD [])

/-- The country filter of `plot_flights_by_country`: both endpoint
countries must match when `internal` is set (lines 407–410), only the
source country otherwise (line 471). -/
def filtered_routes (country : String) (internal : Bool)
    (rowsD : List (MergedRow × ℚ)) : List (MergedRow × ℚ) :=
  if internal then
    rowsD.filter fun rd =>
      rd.1.sourceCountry == country && rd.1.destinationCountry == country
  else
    rowsD.filter fun rd => rd.1.sourceCountry == country

/-- The message printed when the filtered route set is empty (lines
413 / 473). -/
def noRoutesMessage (country : String) : String :=
  "No routes found for " ++ country ++ "."

/-- The observable outcome of a `plot_flights_by_country` call: an
early-return message, or the plot with its annotated aggregates (the
external branch additionally reports the emissions figures of lines
525–529). -/
inductive PlotOutcome where
  | noRoutesFound (msg : String)
  | countryNotFound (country : String)
  | internalPlot (short_haul_count : ℕ) (total_short_haul_distance : ℚ)
      (plotted : List (MergedRow × String))
  | allPlot (short_haul_count : ℕ) (total_short_haul_distance : ℚ)
      (total_emissions_flight total_emissions_train co2_reductions : ℚ)
      (plotted : List (MergedRow × String))
deriving DecidableEq

/-- Model of `Airplane.plot_flights_by_country` (lines 385–541).  The
`world` parameter is the list of country names of the external
`naturalearth_lowres` map, consulted only by the internal branch (lines
416–420).  The call first runs the annotation guard — mutating
`self.merge_df` when the `distance` column is absent — so the result is
the table as left behind by the call, paired with the outcome. -/
def plot_flights_by_country (geodesic : ℚ → ℚ → ℚ → ℚ → Except String ℚ)
    (world : List String) (country : String) (internal : Bool)
    (cutoff_distance : ℚ) (t : MergedTable) : MergedTable × PlotOutcome :=
  let t' := ensure_distance geodesic t
  let routesF := filtered_routes country internal (annotated_rows geodesic t)
  if routesF.isEmpty then
    (t', .noRoutesFound (noRoutesMessage country))
  else if internal then
    if country ∈ world then
      let st := classifyRoutes cutoff_distance routesF
      (t', .internalPlot st.short_haul_count st.total_short_haul_distance
        st.plotted)
    else
      (t', .countryNotFound country)
  else
    let st := classifyRoutes cutoff_distance routesF
    let total_emissions_flight := st.total_short_haul_distance * 246
    let total_emissions_train := total_emissions_flight / 3
    let co2_reductions := (total_emissions_flight - total_emissions_train) / 1000
    (t', .allPlot st.short_haul_count st.total_short_haul_distance
      total_emissions_flight total_emissions_train co2_reductions st.plotted)

/-! ## Concrete fixtures used to exercise the definitions -/

/-- Two Polish airports with distinct IATA codes (the scenario of the
specification, coordinates elided). -/
def exAirports : List Airport :=
  [⟨"KRK", "Krakow", "Krakow", some "Poland", 0, 0⟩,
   ⟨"WAW", "Warsaw", "Warsaw", some "Poland", 0, 0⟩]

/-- A resolvable route and a route citing the unknown code `ZZZ`. -/
def exRoutes : List Route :=
  [⟨"KRK", "WAW", "738"⟩, ⟨"KRK", "ZZZ", "738"⟩]

/-- A merged row whose endpoints coincide, so its unordered pair needs
no string comparison to compute. -/
def exMergedRow : MergedRow :=
  ⟨"AAA", "AAA", "Testland", "Testland", 0, 0, 0, 0, "738"⟩

/-- A merged row for the pair AAA→BBB. -/
def exRowAB : MergedRow :=
  ⟨"AAA", "BBB", "Testland", "Testland", 0, 0, 0, 0, "738"⟩

/-- The reverse-direction row BBB→AAA of `exRowAB`. -/
def exRowBA : MergedRow :=
  ⟨"BBB", "AAA", "Testland", "Testland", 0, 0, 0, 0, "738"⟩

/-- A one-row merged table whose distance column is already present,
with a total short-haul distance of 1000 km. -/
def exTable : MergedTable := ⟨[exMergedRow], some [1000]⟩

/-- A geodesic oracle that always succeeds. -/
def exGeo : ℚ → ℚ → ℚ → ℚ → Except String ℚ := fun _ _ _ _ => .ok 7

/-- A geodesic oracle that always raises. -/
def exGeoFail : ℚ → ℚ → ℚ → ℚ → Except String ℚ :=
  fun _ _ _ _ => .error "ValueError: invalid latitude"

/-- Raw column schemas as documented for the four tables. -/
def exRawTables : RawTables :=
  ⟨["idx", "Name"],
   ["idx", "IATA", "Country", "Type", "Source"],
   ["idx", "Source airport"],
   ["idx", "Name"]⟩

/-- An `Airplane` object before the first `merge_datasets` call. -/
def exObj : AirplaneObj := ⟨exRawTables, [], []⟩

/-- The same object after the first `merge_datasets` call has cleaned
the stored tables in place. -/
def exObjAfter : AirplaneObj :=
  ⟨⟨["Name"], ["IATA", "Country"], ["Source airport"], ["Name"]⟩, [], []⟩

/-! ## Helper lemmas -/

/-- The table component of a `plot_flights_by_country` result is always
the table after the annotation guard, whatever branch produced the
outcome. -/
theorem plot_flights_table_eq (geodesic : ℚ → ℚ → ℚ → ℚ → Except String ℚ)
    (world : List String) (country : String) (internal : Bool)
    (cutoff : ℚ) (t : MergedTable) :
    (plot_flights_by_country geodesic world country internal cutoff t).1
      = ensure_distance geodesic t := by
  unfold plot_flights_by_country
  split_ifs <;> simp [apply_ite Prod.fst]

/-- A successful `dropNamedColumns` removes every requested label. -/
theorem dropNamedColumns_not_mem (names cols out : List String)
    (h : dropNamedColumns names cols = .ok out) : ∀ n ∈ names, n ∉ out := by
  rw [dropNamedColumns] at h
  by_cases hall : (names.all fun n => cols.contains n) = true
  · rw [if_pos hall] at h
    cases h
    intro n hn hmem
    have h2 := (List.mem_filter.mp hmem).2
    simp at h2
    exact h2 hn
  · rw [if_neg hall] at h
    cases h

/-- Inversion of a successful cleanup: the resulting airports table has
neither a `Type` nor a `Source` column. -/
theorem clean_datasets_ok_inv (t t' : RawTables)
    (h : clean_datasets t = .ok t') :
    "Type" ∉ t'.airports_cols ∧ "Source" ∉ t'.airports_cols := by
  rw [clean_datasets] at h
  cases h1 : dropFirstColumn t.airlines_cols with
  | error e => rw [h1] at h; cases h
  | ok l1 =>
  rw [h1] at h; dsimp only at h
  cases h2 : dropFirstColumn t.airports_cols with
  | error e => rw [h2] at h; cases h
  | ok l2 =>
  rw [h2] at h; dsimp only at h
  cases h3 : dropNamedColumns ["Type", "Source"] l2 with
  | error e => rw [h3] at h; cases h
  | ok aps =>
  rw [h3] at h; dsimp only at h
  cases h4 : dropFirstColumn t.routes_cols with
  | error e => rw [h4] at h; cases h
  | ok r1 =>
  rw [h4] at h; dsimp only at h
  cases h5 : dropFirstColumn t.airplanes_cols with
  | error e => rw [h5] at h; cases h
  | ok p1 =>
  rw [h5] at h; dsimp only at h
  cases h
  have hmem := dropNamedColumns_not_mem _ _ _ h3
  exact ⟨by simpa using hmem "Type" (by simp),
    by simpa using hmem "Source" (by simp)⟩

/-- Once the `Type` column is gone from the stored airports table, a
rerun of the cleanup raises. -/
theorem clean_datasets_second_error (t' : RawTables)
    (hT : "Type" ∉ t'.airports_cols) :
    ∃ e, clean_datasets t' = .error e := by
  rw [clean_datasets]
  cases h1 : t'.airlines_cols with
  | nil => exact ⟨_, rfl⟩
  | cons a l1 =>
    cases h2 : t'.airports_cols with
    | nil => exact ⟨_, rfl⟩
    | cons b l2 =>
      have hTb : "Type" ∉ l2 := fun hmem => hT (by rw [h2]; exact List.mem_cons_of_mem b hmem)
      have hcontains : (["Type", "Source"].all fun n => l2.contains n) = false := by
        simp [hTb]
      simp only [dropFirstColumn, dropNamedColumns, hcontains]
      exact ⟨_, rfl⟩

/-- Like `clean_datasets_second_error`, pinned down to the `KeyError` when
neither first-column drop can fail. -/
theorem clean_datasets_second_keyerror (t' : RawTables)
    (hT : "Type" ∉ t'.airports_cols)
    (h1 : t'.airlines_cols ≠ []) (h2 : t'.airports_cols ≠ []) :
    clean_datasets t' = .error "KeyError: columns not found in axis" := by
  rw [clean_datasets]
  cases hc1 : t'.airlines_cols with
  | nil => exact absurd hc1 h1
  | cons a l1 =>
    cases hc2 : t'.airports_cols with
    | nil => exact absurd hc2 h2
    | cons b l2 =>
      have hTb : "Type" ∉ l2 := fun hmem => hT (by rw [hc2]; exact List.mem_cons_of_mem b hmem)
      have hcontains : (["Type", "Source"].all fun n => l2.contains n) = false := by
        simp [hTb]
      simp only [dropFirstColumn, dropNamedColumns, hcontains]
      rfl

/-! ## Claim theorems -/

/-- C5: for every input on which the underlying geodesic computation
fails, `distance_geo` does not propagate the failure: it emits the
diagnostic message and returns 0.  Being a total function into
`ℚ × List String` rather than `Except`, no call can raise to its
caller. -/
theorem C5_distance_fallback
    (geodesic : ℚ → ℚ → ℚ → ℚ → Except String ℚ) (a b c d : ℚ) (exc : String)
    (h : geodesic a b c d = .error exc) :
    distance_geo geodesic a b c d = (0, [errorMessage exc]) := by
  simp [distance_geo, h]

theorem C5_witness :
    exGeoFail 91 0 0 0 = .error "ValueError: invalid latitude"
    ∧ distance_geo exGeoFail 91 0 0 0
        = (0, [errorMessage "ValueError: invalid latitude"]) :=
  ⟨rfl, C5_distance_fallback exGeoFail 91 0 0 0 _ rfl⟩

/-- C6: the distance annotation is idempotent — the guarded annotator is
a no-op when the `distance` column already exists, applying it (or the
raw recomputation) twice equals applying it once, and neither changes
the rows (count or order). -/
theorem C6_idempotent_annotate (geodesic : ℚ → ℚ → ℚ → ℚ → Except String ℚ)
    (t : MergedTable) :
    ensure_distance geodesic (ensure_distance geodesic t)
        = ensure_distance geodesic t
    ∧ (t.distanceCol.isSome → ensure_distance geodesic t = t)
    ∧ (ensure_distance geodesic t).rows = t.rows
    ∧ distance_analysis geodesic (distance_analysis geodesic t)
        = distance_analysis geodesic t
    ∧ (distance_analysis geodesic t).rows = t.rows := by
  refine ⟨?_, fun h => by simp [ensure_distance, h], ?_, ?_, rfl⟩
  · by_cases h : t.distanceCol.isSome <;>
      simp [ensure_distance, distance_analysis, h]
  · by_cases h : t.distanceCol.isSome <;>
      simp [ensure_distance, distance_analysis, h]
  · simp [distance_analysis]

theorem C6_witness :
    exTable.distanceCol.isSome = true
    ∧ ensure_distance exGeo exTable = exTable :=
  ⟨rfl, (C6_idempotent_annotate exGeo exTable).2.1 rfl⟩

/-- C9: whenever the country filter leaves no rows, the classifier
returns the explicit "no routes found" outcome carrying the printed
message; the function is total, so no exception is raised. -/
theorem C9_empty_result (geodesic : ℚ → ℚ → ℚ → ℚ → Except String ℚ)
    (world : List String) (country : String) (internal : Bool)
    (cutoff : ℚ) (t : MergedTable)
    (h : filtered_routes country internal (annotated_rows geodesic t) = []) :
    (plot_flights_by_country geodesic world country internal cutoff t).2
      = .noRoutesFound (noRoutesMessage country) := by
  simp [plot_flights_by_country, h]

theorem C9_witness :
    filtered_routes "Nowhere" true (annotated_rows exGeo ⟨[], some []⟩) = []
    ∧ (plot_flights_by_country exGeo [] "Nowhere" true 500 ⟨[], some []⟩).2
        = .noRoutesFound (noRoutesMessage "Nowhere") :=
  ⟨rfl, C9_empty_result exGeo [] "Nowhere" true 500 ⟨[], some []⟩ rfl⟩

/-- C8 counterexample: invoking the classifier on a merged table that
does not yet carry the `distance` column mutates the table — the
annotation guard adds the column — so the table is not identical before
and after the call. -/
theorem C8_counterexample :
    (plot_flights_by_country exGeo [] "X" false 500 ⟨[exRowAB], none⟩).1
      ≠ (⟨[exRowAB], none⟩ : MergedTable) := by
  intro h
  have h2 := congrArg MergedTable.distanceCol h
  rw [plot_flights_table_eq] at h2
  simp [ensure_distance, distance_analysis] at h2

/-- C8 as amended: the classification pass itself never rewrites the
merged table; the table after any invocation is exactly the table after
the annotation guard, so the rows are always unchanged, and the table
is identical before and after whenever the `distance` column was
already present. -/
theorem C8_classifier_frame (geodesic : ℚ → ℚ → ℚ → ℚ → Except String ℚ)
    (world : List String) (country : String) (internal : Bool)
    (cutoff : ℚ) (t : MergedTable) :
    (plot_flights_by_country geodesic world country internal cutoff t).1
        = ensure_distance geodesic t
    ∧ (t.distanceCol.isSome →
        (plot_flights_by_country geodesic world country internal cutoff t).1 = t)
    ∧ ((plot_flights_by_country geodesic world country internal cutoff t).1).rows
        = t.rows := by
  refine ⟨plot_flights_table_eq geodesic world country internal cutoff t, ?_, ?_⟩
  · intro h
    rw [plot_flights_table_eq]
    simp [ensure_distance, h]
  · rw [plot_flights_table_eq]
    by_cases h : t.distanceCol.isSome <;>
      simp [ensure_distance, distance_analysis, h]

theorem C8_witness :
    exTable.distanceCol.isSome = true
    ∧ (plot_flights_by_country exGeo [] "X" false 500 exTable).1 = exTable :=
  ⟨rfl, (C8_classifier_frame exGeo [] "X" false 500 exTable).2.1 rfl⟩

/-- C4: the emissions model of the external branch uses exactly the
constants 246, 3 and 1000 — flight emissions are the reported total
short-haul distance times 246, train emissions are a third of that, and
the reduction is their difference over 1000 — so a total of 1000 km
yields 246000 g, 82000 g and 164 kg. -/
theorem C4_emissions (geodesic : ℚ → ℚ → ℚ → ℚ → Except String ℚ)
    (world : List String) (country : String) (cutoff : ℚ) (t : MergedTable)
    (c : ℕ) (tot fe te red : ℚ) (pl : List (MergedRow × String))
    (h : (plot_flights_by_country geodesic world country false cutoff t).2
          = .allPlot c tot fe te red pl) :
    fe = tot * 246 ∧ te = fe / 3 ∧ red = (fe - te) / 1000
    ∧ (tot = 1000 → fe = 246000 ∧ te = 82000 ∧ red = 164) := by
  by_cases hemp :
      (filtered_routes country false (annotated_rows geodesic t)).isEmpty
  · simp [plot_flights_by_country, hemp] at h
  · simp only [plot_flights_by_country, hemp, Bool.false_eq_true, if_false,
      PlotOutcome.allPlot.injEq] at h
    obtain ⟨-, h2, h3, h4, h5, -⟩ := h
    subst h2
    subst h3
    subst h4
    subst h5
    refine ⟨rfl, rfl, rfl, fun htot => ?_⟩
    rw [htot]
    norm_num

theorem C4_witness :
    (plot_flights_by_country exGeo [] "Testland" false 1000 exTable).2
      = .allPlot 1 1000 (1000 * 246) ((1000 * 246 : ℚ) / 3)
          (((1000 * 246 : ℚ) - (1000 * 246 : ℚ) / 3) / 1000)
          [(exMergedRow, "tomato")]
    ∧ ((1000 * 246 : ℚ) = 246000 ∧ ((1000 * 246 : ℚ) / 3) = 82000
        ∧ (((1000 * 246 : ℚ) - (1000 * 246 : ℚ) / 3) / 1000) = 164) := by
  have h : (plot_flights_by_country exGeo [] "Testland" false 1000 exTable).2
      = .allPlot 1 1000 (1000 * 246) ((1000 * 246 : ℚ) / 3)
          (((1000 * 246 : ℚ) - (1000 * 246 : ℚ) / 3) / 1000)
          [(exMergedRow, "tomato")] := by
    simp [plot_flights_by_country, exTable, annotated_rows, ensure_distance,
      filtered_routes, classifyRoutes, classifyRoutesFrom, classifyStep,
      initState, exMergedRow, round_trip_airports]
  exact ⟨h,
    (C4_emissions exGeo [] "Testland" 1000 exTable 1 1000 _ _ _ _ h).2.2.2 rfl⟩

/-- C10: `merge_datasets` cleans the stored tables in place, so it is
single-shot: once an invocation has succeeded, invoking it again on the
resulting object raises (the `Type` and `Source` columns are no longer
there to be dropped) instead of returning the merged table again. -/
theorem C10_single_shot (o o' : AirplaneObj) (merged : List Merge2Row)
    (h : merge_datasets_method o = .ok (o', merged)) :
    (∃ e, merge_datasets_method o' = .error e)
    ∧ (o'.cols.airlines_cols ≠ [] → o'.cols.airports_cols ≠ [] →
        merge_datasets_method o'
          = .error "KeyError: columns not found in axis") := by
  rw [merge_datasets_method] at h
  cases hc : clean_datasets o.cols with
  | error e => rw [hc] at h; cases h
  | ok c =>
    rw [hc] at h
    cases h
    have hT := (clean_datasets_ok_inv _ _ hc).1
    constructor
    · obtain ⟨e, he⟩ := clean_datasets_second_error _ hT
      exact ⟨e, by rw [merge_datasets_method, he]⟩
    · intro h1 h2
      rw [merge_datasets_method, clean_datasets_second_keyerror _ hT h1 h2]

theorem C10_witness :
    merge_datasets_method exObj = .ok (exObjAfter, [])
    ∧ exObjAfter.cols.airlines_cols ≠ []
    ∧ exObjAfter.cols.airports_cols ≠ []
    ∧ merge_datasets_method exObjAfter
        = .error "KeyError: columns not found in axis" :=
  ⟨rfl, by simp [exObjAfter], by simp [exObjAfter],
    (C10_single_shot exObj exObjAfter [] rfl).2 (by simp [exObjAfter])
      (by simp [exObjAfter])⟩

/-! ## Dedup behaviour of the classification loop -/

/-- A row whose unordered pair is already recorded leaves the loop
state unchanged (the outer `if` of the loop body). -/
theorem classifyStep_skip (cutoff : ℚ) (st : ClassState) (rd : MergedRow × ℚ)
    (h : round_trip_airports rd.1 ∈ st.no_double_routes) :
    classifyStep cutoff st rd = st := by
  simp [classifyStep, h]

/-- Membership in `no_double_routes` after one loop step: a pair is
recorded afterwards iff it was recorded before or the step processed a
short-haul row of that pair. -/
theorem mem_noDouble_step (cutoff : ℚ) (st : ClassState) (rd : MergedRow × ℚ)
    (K : String × String) :
    K ∈ (classifyStep cutoff st rd).no_double_routes ↔
      K ∈ st.no_double_routes ∨
        (K = round_trip_airports rd.1 ∧ rd.2 ≤ cutoff) := by
  by_cases h1 : round_trip_airports rd.1 ∈ st.no_double_routes
  · rw [classifyStep_skip cutoff st rd h1]
    constructor
    · exact fun h => Or.inl h
    · rintro (h | ⟨hK, _⟩)
      · exact h
      · rw [hK]; exact h1
  · by_cases h2 : rd.2 ≤ cutoff
    · simp only [classifyStep, if_neg h1, if_pos h2, List.mem_cons]
      tauto
    · simp only [classifyStep, if_neg h1, if_neg h2]
      tauto

/-- Membership in `no_double_routes` after a full run: a pair is
recorded iff some row of that pair with distance at or below the cutoff
appears in the list (or it was recorded initially). -/
theorem mem_noDouble_fold (cutoff : ℚ) (rowsD : List (MergedRow × ℚ)) :
    ∀ (st : ClassState) (K : String × String),
      K ∈ (classifyRoutesFrom cutoff st rowsD).no_double_routes ↔
        K ∈ st.no_double_routes ∨
          ∃ rd ∈ rowsD, round_trip_airports rd.1 = K ∧ rd.2 ≤ cutoff := by
  induction rowsD with
  | nil => intro st K; simp [classifyRoutesFrom]
  | cons a l ih =>
    intro st K
    simp only [classifyRoutesFrom, List.foldl_cons] at ih ⊢
    rw [ih, mem_noDouble_step]
    simp only [List.mem_cons]
    constructor
    · rintro ((h | ⟨hK, hle⟩) | ⟨rd, hrd, hK, hle⟩)
      · exact Or.inl h
      · exact Or.inr ⟨a, Or.inl rfl, hK.symm, hle⟩
      · exact Or.inr ⟨rd, Or.inr hrd, hK, hle⟩
    · rintro (h | ⟨rd, hrd | hrd, hK, hle⟩)
      · exact Or.inl (Or.inl h)
      · subst hrd; exact Or.inl (Or.inr ⟨hK.symm, hle⟩)
      · exact Or.inr ⟨rd, hrd, hK, hle⟩

/-- When every row is long-haul the dedup set never grows, so no row is
ever skipped: every row is drawn, and the accumulators stay put. -/
theorem fold_longhaul (cutoff : ℚ) (rowsD : List (MergedRow × ℚ)) :
    ∀ st : ClassState, st.no_double_routes = [] →
      (∀ rd ∈ rowsD, cutoff < rd.2) →
      classifyRoutesFrom cutoff st rowsD
        = { st with plotted :=
              st.plotted ++ rowsD.map fun rd => (rd.1, "midnightblue") } := by
  induction rowsD with
  | nil => intro st _ _; simp [classifyRoutesFrom]
  | cons a l ih =>
    intro st hset hlt
    have hk : round_trip_airports a.1 ∉ st.no_double_routes := by simp [hset]
    have hgt : ¬ a.2 ≤ cutoff := not_le.mpr (hlt a (List.mem_cons_self a l))
    have hstep : classifyStep cutoff st a
        = { st with plotted := st.plotted ++ [(a.1, "midnightblue")] } := by
      simp [classifyStep, hk, hgt]
    simp only [classifyRoutesFrom, List.foldl_cons] at ih ⊢
    rw [hstep, ih _ (by simp [hset])
      (fun rd hrd => hlt rd (List.mem_cons_of_mem a hrd))]
    simp

/-- C2 as amended: skipping is governed by the dedup set, and a pair
enters the set only when one of its rows is processed as short-haul.
So (i) when every row is long-haul, no row is ever skipped — each one,
reverse duplicates included, is processed and drawn — and nothing
accumulates; (ii) after any run the set holds exactly the pairs having
a short-haul occurrence; (iii) a row whose pair is already in the set
is skipped entirely. -/
theorem C2_dedup_only_short_haul (cutoff : ℚ) (rowsD : List (MergedRow × ℚ)) :
    ((∀ rd ∈ rowsD, cutoff < rd.2) →
      classifyRoutes cutoff rowsD
        = { total_short_haul_distance := 0, no_double_routes := [],
            short_haul_count := 0,
            plotted := rowsD.map fun rd => (rd.1, "midnightblue") })
    ∧ (∀ K : String × String,
        K ∈ (classifyRoutes cutoff rowsD).no_double_routes ↔
          ∃ rd ∈ rowsD, round_trip_airports rd.1 = K ∧ rd.2 ≤ cutoff)
    ∧ (∀ (st : ClassState) (rd : MergedRow × ℚ),
        round_trip_airports rd.1 ∈ st.no_double_routes →
        classifyStep cutoff st rd = st) := by
  refine ⟨?_, ?_, fun st rd h => classifyStep_skip cutoff st rd h⟩
  · intro hlt
    rw [classifyRoutes, fold_longhaul cutoff rowsD initState rfl hlt]
    rfl
  · intro K
    rw [classifyRoutes, mem_noDouble_fold]
    simp [initState]

/-- C2 counterexample: with cutoff 500 km the pair AAA↔BBB at distance
600 km is long-haul, so its key is never recorded; processing the
reverse-direction row is then not a no-op — the row is drawn a second
time — refuting the claim that every subsequent row of a pair is
skipped entirely regardless of bucket. -/
theorem C2_counterexample :
    classifyStep 500 (classifyStep 500 initState (exRowAB, 600)) (exRowBA, 600)
      ≠ classifyStep 500 initState (exRowAB, 600) := by
  intro h
  have h2 := congrArg (fun st : ClassState => st.plotted.length) h
  have hgt : ¬ (600 : ℚ) ≤ 500 := by norm_num
  simp [classifyStep, initState, hgt] at h2

theorem C2_witness :
    ((∀ rd ∈ [((exRowAB : MergedRow), (600 : ℚ)), (exRowBA, 600)],
        (500 : ℚ) < rd.2)
      ∧ classifyRoutes 500 [(exRowAB, 600), (exRowBA, 600)]
          = { total_short_haul_distance := 0, no_double_routes := [],
              short_haul_count := 0,
              plotted := [((exRowAB : MergedRow), (600 : ℚ)),
                (exRowBA, 600)].map fun rd => (rd.1, "midnightblue") })
    ∧ (("AAA", "AAA")
          ∈ (classifyRoutes 500 [(exRowAB, 600), (exRowBA, 600)]).no_double_routes
        ↔ ∃ rd ∈ [((exRowAB : MergedRow), (600 : ℚ)), (exRowBA, 600)],
            round_trip_airports rd.1 = ("AAA", "AAA") ∧ rd.2 ≤ 500)
    ∧ classifyStep 500 ⟨0, [("AAA", "AAA")], 0, []⟩ (exMergedRow, 600)
        = ⟨0, [("AAA", "AAA")], 0, []⟩ := by
  have hlt : ∀ rd ∈ [((exRowAB : MergedRow), (600 : ℚ)), (exRowBA, 600)],
      (500 : ℚ) < rd.2 := by
    intro rd hrd
    simp only [List.mem_cons, List.not_mem_nil, or_false] at hrd
    rcases hrd with h | h <;> (rw [h]; norm_num)
  exact ⟨⟨hlt,
      (C2_dedup_only_short_haul 500 [(exRowAB, 600), (exRowBA, 600)]).1 hlt⟩,
    (C2_dedup_only_short_haul 500 [(exRowAB, 600), (exRowBA, 600)]).2.1
      ("AAA", "AAA"),
    (C2_dedup_only_short_haul 500 [(exRowAB, 600), (exRowBA, 600)]).2.2
      ⟨0, [("AAA", "AAA")], 0, []⟩ (exMergedRow, 600)
      (by simp [round_trip_airports, exMergedRow])⟩

/-- Relational invariant for the pair-counted-once argument: from two
states that differ by exactly one recorded short-haul pair `K` (count
one higher, total higher by `d`), running the loop on rows whose
`K`-rows are all short-haul versus on the rows with the `K`-rows
removed preserves the differences. -/
theorem fold_rel (cutoff : ℚ) (K : String × String) (d : ℚ)
    (rowsD : List (MergedRow × ℚ)) :
    ∀ st1 st2 : ClassState,
    (∀ rd ∈ rowsD, round_trip_airports rd.1 = K → rd.2 ≤ cutoff) →
    K ∈ st1.no_double_routes →
    K ∉ st2.no_double_routes →
    st1.short_haul_count = st2.short_haul_count + 1 →
    st1.total_short_haul_distance = st2.total_short_haul_distance + d →
    (∀ k : String × String, k ≠ K →
      (k ∈ st1.no_double_routes ↔ k ∈ st2.no_double_routes)) →
    (classifyRoutesFrom cutoff st1 rowsD).short_haul_count
      = (classifyRoutesFrom cutoff st2 (rowsD.filter fun rd =>
          decide (round_trip_airports rd.1 ≠ K))).short_haul_count + 1
    ∧ (classifyRoutesFrom cutoff st1 rowsD).total_short_haul_distance
      = (classifyRoutesFrom cutoff st2 (rowsD.filter fun rd =>
          decide (round_trip_airports rd.1 ≠ K))).total_short_haul_distance + d := by
  induction rowsD with
  | nil => intro st1 st2 _ _ _ h4 h5 _; exact ⟨h4, h5⟩
  | cons a l ih =>
    intro st1 st2 hall hK1 hK2 hcount htotal hiff
    have hall' : ∀ rd ∈ l, round_trip_airports rd.1 = K → rd.2 ≤ cutoff :=
      fun rd hrd => hall rd (List.mem_cons_of_mem a hrd)
    by_cases hK : round_trip_airports a.1 = K
    · have hfil : List.filter (fun rd => decide (round_trip_airports rd.1 ≠ K))
          (a :: l)
          = List.filter (fun rd => decide (round_trip_airports rd.1 ≠ K)) l := by
        simp [List.filter_cons, hK]
      have hskip : classifyStep cutoff st1 a = st1 :=
        classifyStep_skip cutoff st1 a (by rw [hK]; exact hK1)
      rw [hfil]
      simp only [classifyRoutesFrom, List.foldl_cons] at ih ⊢
      rw [hskip]
      exact ih st1 st2 hall' hK1 hK2 hcount htotal hiff
    · have hfil : List.filter (fun rd => decide (round_trip_airports rd.1 ≠ K))
          (a :: l)
          = a :: List.filter (fun rd => decide (round_trip_airports rd.1 ≠ K)) l := by
        simp [List.filter_cons, hK]
      rw [hfil]
      simp only [classifyRoutesFrom, List.foldl_cons] at ih ⊢
      by_cases hmem1 : round_trip_airports a.1 ∈ st1.no_double_routes
      · have hmem2 : round_trip_airports a.1 ∈ st2.no_double_routes :=
          (hiff _ hK).mp hmem1
        rw [classifyStep_skip cutoff st1 a hmem1,
          classifyStep_skip cutoff st2 a hmem2]
        exact ih st1 st2 hall' hK1 hK2 hcount htotal hiff
      · have hmem2 : round_trip_airports a.1 ∉ st2.no_double_routes :=
          fun hm => hmem1 ((hiff _ hK).mpr hm)
        by_cases hle : a.2 ≤ cutoff
        · have hstep1 : classifyStep cutoff st1 a
              = ⟨st1.total_short_haul_distance + a.2,
                round_trip_airports a.1 :: st1.no_double_routes,
                st1.short_haul_count + 1, st1.plotted ++ [(a.1, "tomato")]⟩ := by
            simp [classifyStep, hmem1, hle]
          have hstep2 : classifyStep cutoff st2 a
              = ⟨st2.total_short_haul_distance + a.2,
                round_trip_airports a.1 :: st2.no_double_routes,
                st2.short_haul_count + 1, st2.plotted ++ [(a.1, "tomato")]⟩ := by
            simp [classifyStep, hmem2, hle]
          rw [hstep1, hstep2]
          refine ih _ _ hall' (List.mem_cons_of_mem _ hK1) ?_ ?_ ?_ ?_
          · intro hm
            rcases List.mem_cons.mp hm with h | h
            · exact hK h.symm
            · exact hK2 h
          · simp only
            omega
          · simp only
            rw [htotal]
            ring
          · intro k hk
            simp only [List.mem_cons]
            exact or_congr Iff.rfl (hiff k hk)
        · have hstep1 : classifyStep cutoff st1 a
              = { st1 with plotted := st1.plotted ++ [(a.1, "midnightblue")] } := by
            simp [classifyStep, hmem1, hle]
          have hstep2 : classifyStep cutoff st2 a
              = { st2 with plotted := st2.plotted ++ [(a.1, "midnightblue")] } := by
            simp [classifyStep, hmem2, hle]
          rw [hstep1, hstep2]
          exact ih _ _ hall' hK1 hK2 hcount htotal hiff

/-- First-occurrence lemma: if a row of pair `K` occurs and every
`K`-row is short-haul, the run counts exactly one more short-haul
flight than the run without the `K`-rows, and its total is higher by
the distance of one of the `K`-rows. -/
theorem fold_first (cutoff : ℚ) (K : String × String)
    (rowsD : List (MergedRow × ℚ)) :
    ∀ st : ClassState,
    (∀ rd ∈ rowsD, round_trip_airports rd.1 = K → rd.2 ≤ cutoff) →
    K ∉ st.no_double_routes →
    (∃ rd ∈ rowsD, round_trip_airports rd.1 = K) →
    ∃ d : ℚ,
      (∃ rd ∈ rowsD, round_trip_airports rd.1 = K ∧ rd.2 = d ∧ d ≤ cutoff)
      ∧ (classifyRoutesFrom cutoff st rowsD).short_haul_count
          = (classifyRoutesFrom cutoff st (rowsD.filter fun rd =>
              decide (round_trip_airports rd.1 ≠ K))).short_haul_count + 1
      ∧ (classifyRoutesFrom cutoff st rowsD).total_short_haul_distance
          = (classifyRoutesFrom cutoff st (rowsD.filter fun rd =>
              decide (round_trip_airports rd.1 ≠ K))).total_short_haul_distance
            + d := by
  induction rowsD with
  | nil => intro st _ _ hex; simp at hex
  | cons a l ih =>
    intro st hall hKst hex
    have hall' : ∀ rd ∈ l, round_trip_airports rd.1 = K → rd.2 ≤ cutoff :=
      fun rd hrd => hall rd (List.mem_cons_of_mem a hrd)
    by_cases hK : round_trip_airports a.1 = K
    · have hle : a.2 ≤ cutoff := hall a (List.mem_cons_self a l) hK
      have hmem : round_trip_airports a.1 ∉ st.no_double_routes := by
        rw [hK]; exact hKst
      have hstep : classifyStep cutoff st a
          = ⟨st.total_short_haul_distance + a.2,
            round_trip_airports a.1 :: st.no_double_routes,
            st.short_haul_count + 1, st.plotted ++ [(a.1, "tomato")]⟩ := by
        simp [classifyStep, hmem, hle]
      have hfil : List.filter (fun rd => decide (round_trip_airports rd.1 ≠ K))
          (a :: l)
          = List.filter (fun rd => decide (round_trip_airports rd.1 ≠ K)) l := by
        simp [List.filter_cons, hK]
      refine ⟨a.2, ⟨a, List.mem_cons_self a l, hK, rfl, hle⟩, ?_⟩
      rw [hfil]
      simp only [classifyRoutesFrom, List.foldl_cons]
      rw [hstep]
      exact fold_rel cutoff K a.2 l _ st hall'
        (by rw [← hK]; exact List.mem_cons_self _ _) hKst rfl rfl
        (fun k hk => by
          simp only [List.mem_cons]
          constructor
          · rintro (h | h)
            · exact absurd (h.trans hK) hk
            · exact h
          · exact fun h => Or.inr h)
    · have hfil : List.filter (fun rd => decide (round_trip_airports rd.1 ≠ K))
          (a :: l)
          = a :: List.filter (fun rd => decide (round_trip_airports rd.1 ≠ K)) l := by
        simp [List.filter_cons, hK]
      have hKst' : K ∉ (classifyStep cutoff st a).no_double_routes := by
        rw [mem_noDouble_step]
        rintro (h | ⟨hKeq, _⟩)
        · exact hKst h
        · exact hK hKeq.symm
      have hex' : ∃ rd ∈ l, round_trip_airports rd.1 = K := by
        rcases hex with ⟨rd, hrd, hrdK⟩
        rcases List.mem_cons.mp hrd with h | h
        · subst h; exact absurd hrdK hK
        · exact ⟨rd, h, hrdK⟩
      obtain ⟨d, ⟨rd0, hrd0, hK0, hd0, hle0⟩, hcnt, htot⟩ :=
        ih (classifyStep cutoff st a) hall' hKst' hex'
      refine ⟨d, ⟨rd0, List.mem_cons_of_mem a hrd0, hK0, hd0, hle0⟩, ?_, ?_⟩
      · rw [hfil]
        simp only [classifyRoutesFrom, List.foldl_cons] at hcnt ⊢
        exact hcnt
      · rw [hfil]
        simp only [classifyRoutesFrom, List.foldl_cons] at htot ⊢
        exact htot

/-- C3: when the filtered rows contain both the row A→B and the reverse
row B→A of a pair every occurrence of which is at or below the cutoff,
the classifier's short-haul count exceeds the count of the run without
that pair's rows by exactly 1 — the pair is counted once, not twice —
and the short-haul total includes the pair's distance exactly once. -/
theorem C3_pair_counted_once (cutoff : ℚ) (rowsD : List (MergedRow × ℚ))
    (A B : String)
    (hAB : ∃ rd ∈ rowsD, rd.1.sourceAirport = A ∧ rd.1.destinationAirport = B)
    (hBA : ∃ rd ∈ rowsD, rd.1.sourceAirport = B ∧ rd.1.destinationAirport = A)
    (hshort : ∀ rd ∈ rowsD,
      round_trip_airports rd.1 = (min A B, max A B) → rd.2 ≤ cutoff) :
    ∃ d : ℚ,
      (∃ rd ∈ rowsD, round_trip_airports rd.1 = (min A B, max A B)
          ∧ rd.2 = d ∧ d ≤ cutoff)
      ∧ (classifyRoutes cutoff rowsD).short_haul_count
          = (classifyRoutes cutoff (rowsD.filter fun rd =>
              decide (round_trip_airports rd.1
                ≠ (min A B, max A B)))).short_haul_count + 1
      ∧ (classifyRoutes cutoff rowsD).total_short_haul_distance
          = (classifyRoutes cutoff (rowsD.filter fun rd =>
              decide (round_trip_airports rd.1
                ≠ (min A B, max A B)))).total_short_haul_distance + d := by
  have hex : ∃ rd ∈ rowsD, round_trip_airports rd.1 = (min A B, max A B) := by
    rcases hAB with ⟨rd, hrd, h1, h2⟩
    exact ⟨rd, hrd, by rw [round_trip_airports, h1, h2]⟩
  have hex2 := hBA
  exact fold_first cutoff _ rowsD initState hshort (by simp [initState]) hex

theorem C3_witness :
    (∃ rd ∈ [((exRowAB : MergedRow), (252 : ℚ)), (exRowBA, 252)],
        rd.1.sourceAirport = "AAA" ∧ rd.1.destinationAirport = "BBB")
    ∧ (∃ rd ∈ [((exRowAB : MergedRow), (252 : ℚ)), (exRowBA, 252)],
        rd.1.sourceAirport = "BBB" ∧ rd.1.destinationAirport = "AAA")
    ∧ (∀ rd ∈ [((exRowAB : MergedRow), (252 : ℚ)), (exRowBA, 252)],
        round_trip_airports rd.1 = (min "AAA" "BBB", max "AAA" "BBB")
          → rd.2 ≤ 500)
    ∧ ∃ d : ℚ,
        (∃ rd ∈ [((exRowAB : MergedRow), (252 : ℚ)), (exRowBA, 252)],
            round_trip_airports rd.1 = (min "AAA" "BBB", max "AAA" "BBB")
              ∧ rd.2 = d ∧ d ≤ 500)
        ∧ (classifyRoutes 500 [(exRowAB, 252), (exRowBA, 252)]).short_haul_count
            = (classifyRoutes 500
                ([((exRowAB : MergedRow), (252 : ℚ)),
                  (exRowBA, 252)].filter fun rd =>
                  decide (round_trip_airports rd.1
                    ≠ (min "AAA" "BBB", max "AAA" "BBB")))).short_haul_count + 1
        ∧ (classifyRoutes 500
              [(exRowAB, 252), (exRowBA, 252)]).total_short_haul_distance
            = (classifyRoutes 500
                ([((exRowAB : MergedRow), (252 : ℚ)),
                  (exRowBA, 252)].filter fun rd =>
                  decide (round_trip_airports rd.1
                    ≠ (min "AAA" "BBB", max "AAA" "BBB")))).total_short_haul_distance
              + d := by
  have hAB : ∃ rd ∈ [((exRowAB : MergedRow), (252 : ℚ)), (exRowBA, 252)],
      rd.1.sourceAirport = "AAA" ∧ rd.1.destinationAirport = "BBB" :=
    ⟨(exRowAB, 252), List.mem_cons_self _ _, rfl, rfl⟩
  have hBA : ∃ rd ∈ [((exRowAB : MergedRow), (252 : ℚ)), (exRowBA, 252)],
      rd.1.sourceAirport = "BBB" ∧ rd.1.destinationAirport = "AAA" :=
    ⟨(exRowBA, 252), List.mem_cons_of_mem _ (List.mem_cons_self _ _), rfl, rfl⟩
  have hshort : ∀ rd ∈ [((exRowAB : MergedRow), (252 : ℚ)), (exRowBA, 252)],
      round_trip_airports rd.1 = (min "AAA" "BBB", max "AAA" "BBB")
        → rd.2 ≤ 500 := by
    intro rd hrd _
    simp only [List.mem_cons, List.not_mem_nil, or_false] at hrd
    rcases hrd with h | h <;> (rw [h]; norm_num)
  exact ⟨hAB, hBA, hshort,
    C3_pair_counted_once 500 _ "AAA" "BBB" hAB hBA hshort⟩

/-! ## Merge inversion and counting lemmas -/

/-- Inversion of the first merge: a `merge_df_1` row carrying a route
got it from the routes table, matched on the IATA code of one of the
airports. -/
theorem merge_df_1_route_inv (airports_df : List Airport)
    (routes_df : List Route) (x : Merge1Row) (r : Route)
    (hx : x ∈ merge_df_1 airports_df routes_df) (hr : x.route = some r) :
    r ∈ routes_df ∧ r.sourceAirport ∈ airports_df.map Airport.iata := by
  rw [merge_df_1, List.mem_flatMap] at hx
  obtain ⟨a, ha, hxa⟩ := hx
  dsimp only at hxa
  by_cases hm : (routes_df.filter fun rr => rr.sourceAirport == a.iata).isEmpty
  · rw [if_pos hm] at hxa
    rw [List.mem_singleton] at hxa
    rw [hxa] at hr
    cases hr
  · rw [if_neg hm, List.mem_map] at hxa
    obtain ⟨r', hr', hxr'⟩ := hxa
    rw [← hxr'] at hr
    cases hr
    have h2 := List.mem_filter.mp hr'
    refine ⟨h2.1, ?_⟩
    rw [beq_iff_eq.mp h2.2]
    exact List.mem_map_of_mem Airport.iata ha

/-- Inversion of the second merge: each output row reproduces the route
of a `merge_df_1` row, and its destination is either null or an airport
matched on the route's destination code. -/
theorem merge_df_2_inv (m1 : List Merge1Row) (airports_df : List Airport)
    (row : Merge2Row) (h : row ∈ merge_df_2 m1 airports_df) :
    ∃ x ∈ m1, row.route = x.route ∧
      (row.destination = none ∨
        ∃ r, x.route = some r ∧ ∃ a2 ∈ airports_df,
          row.destination = some a2 ∧ a2.iata = r.destinationAirport) := by
  rw [merge_df_2, List.mem_flatMap] at h
  obtain ⟨x, hx, hrow⟩ := h
  refine ⟨x, hx, ?_⟩
  cases hx2 : x.route with
  | none =>
    rw [hx2] at hrow
    dsimp only at hrow
    rw [List.mem_singleton] at hrow
    rw [hrow]
    exact ⟨rfl, Or.inl rfl⟩
  | some r =>
    rw [hx2] at hrow
    dsimp only at hrow
    by_cases hm :
        (airports_df.filter fun a2 => a2.iata == r.destinationAirport).isEmpty
    · rw [if_pos hm, List.mem_singleton] at hrow
      rw [hrow]
      exact ⟨rfl, Or.inl rfl⟩
    · rw [if_neg hm, List.mem_map] at hrow
      obtain ⟨a2, ha2, hra⟩ := hrow
      have h2 := List.mem_filter.mp ha2
      rw [← hra]
      exact ⟨rfl, Or.inr ⟨r, rfl, a2, h2.1, rfl, beq_iff_eq.mp h2.2⟩⟩

/-- C1: every row of the merge output has a non-null `Source country`
and a non-null `Destination country`, and a route citing an airport
code absent from the airports table yields no output row. -/
theorem C1_merge_filter (airports_df : List Airport) (routes_df : List Route) :
    (∀ row ∈ merge_datasets airports_df routes_df,
        row.sourceCountry.isSome ∧ row.destinationCountry.isSome)
    ∧ ∀ r : Route,
        (r.sourceAirport ∉ airports_df.map Airport.iata
          ∨ r.destinationAirport ∉ airports_df.map Airport.iata) →
        ∀ row ∈ merge_datasets airports_df routes_df, row.route ≠ some r := by
  constructor
  · intro row hrow
    have h := (List.mem_filter.mp hrow).2
    simpa using h
  · intro r habs row hrow hre
    have hmem := (List.mem_filter.mp hrow).1
    have hp := (List.mem_filter.mp hrow).2
    obtain ⟨x, hx, hxr, hdest⟩ := merge_df_2_inv _ _ _ hmem
    have hxroute : x.route = some r := by rw [← hxr]; exact hre
    have hsrc := (merge_df_1_route_inv _ _ _ _ hx hxroute).2
    rcases habs with habs | habs
    · exact habs hsrc
    · have hds : row.destinationCountry.isSome = true := by
        have h2 := (Bool.and_eq_true _ _).mp hp
        exact h2.2
      rcases hdest with hnone | ⟨r', hr', a2, ha2, hda, hiata⟩
      · rw [Merge2Row.destinationCountry, hnone] at hds
        cases hds
      · have hrr : r' = r := by
          rw [hxroute] at hr'
          exact (Option.some.injEq _ _).mp hr'.symm
        subst hrr
        apply habs
        rw [← hiata]
        exact List.mem_map_of_mem Airport.iata ha2

/-- The row of `merge_datasets exAirports exRoutes` resolving the
KRK→WAW route. -/
def exMergedOut : Merge2Row :=
  ⟨⟨"KRK", "Krakow", "Krakow", some "Poland", 0, 0⟩, some ⟨"KRK", "WAW", "738"⟩,
    some ⟨"WAW", "Warsaw", "Warsaw", some "Poland", 0, 0⟩⟩

theorem C1_witness :
    exMergedOut ∈ merge_datasets exAirports exRoutes
    ∧ (exMergedOut.sourceCountry.isSome
        ∧ exMergedOut.destinationCountry.isSome)
    ∧ ("ZZZ" : String) ∉ exAirports.map Airport.iata
    ∧ exMergedOut.route ≠ some ⟨"KRK", "ZZZ", "738"⟩ := by
  have hmem : exMergedOut ∈ merge_datasets exAirports exRoutes := by decide
  exact ⟨hmem, (C1_merge_filter exAirports exRoutes).1 exMergedOut hmem,
    by decide,
    (C1_merge_filter exAirports exRoutes).2 ⟨"KRK", "ZZZ", "738"⟩
      (Or.inr (by decide)) exMergedOut hmem⟩

/-- The predicate count distributes over `flatMap` as a sum. -/
theorem countP_flatMap {α β : Type} (l : List α) (f : α → List β)
    (p : β → Bool) :
    (l.flatMap f).countP p = (l.map fun a => (f a).countP p).sum := by
  induction l with
  | nil => rfl
  | cons a t ih => simp [List.flatMap_cons, List.countP_append, ih]

/-- The predicate count expressed as a sum of indicator values. -/
theorem countP_eq_sum_map {α : Type} (l : List α) (p : α → Bool) :
    l.countP p = (l.map fun x => if p x then 1 else 0).sum := by
  induction l with
  | nil => rfl
  | cons a t ih => by_cases h : p a <;> simp [List.countP_cons, h, ih, Nat.add_comm]

/-- Filtering a list keeps the `countP` at most as large. -/
theorem countP_filter_le {α : Type} (l : List α) (p q : α → Bool) :
    (l.filter q).countP p ≤ l.countP p := by
  rw [List.countP_filter]
  exact List.countP_mono_left fun a _ h => ((Bool.and_eq_true _ _).mp h).1

/-- Under unique IATA codes, at most one airport matches a given code. -/
theorem filter_iata_length_le_one :
    ∀ airports_df : List Airport, (airports_df.map Airport.iata).Nodup →
    ∀ k : String, (airports_df.filter fun a => a.iata == k).length ≤ 1 := by
  intro l
  induction l with
  | nil => intro _ k; simp
  | cons a t ih =>
    intro hnodup k
    rw [List.map_cons, List.nodup_cons] at hnodup
    by_cases h : (a.iata == k) = true
    · have hz : t.filter (fun b => b.iata == k) = [] := by
        apply List.filter_eq_nil_iff.mpr
        intro b hb hbeq
        apply hnodup.1
        rw [beq_iff_eq.mp h, ← beq_iff_eq.mp hbeq]
        exact List.mem_map_of_mem Airport.iata hb
      simp [List.filter_cons, h, hz]
    · simp only [List.filter_cons, h, if_false, Bool.false_eq_true]
      exact ih hnodup.2 k

/-- Under unique IATA codes, a sum of indicators keyed on a single code
is bounded by one contribution. -/
theorem sum_ite_iata_le (c : ℕ) (k : String) :
    ∀ l : List Airport, (l.map Airport.iata).Nodup →
    (l.map fun a => if k = a.iata then c else 0).sum ≤ c := by
  intro l
  induction l with
  | nil => intro _; simp
  | cons a t ih =>
    intro hnodup
    rw [List.map_cons, List.nodup_cons] at hnodup
    by_cases h : k = a.iata
    · have hz : ∀ x ∈ t.map fun b => if k = b.iata then c else 0, x = 0 := by
        intro x hx
        rw [List.mem_map] at hx
        obtain ⟨b, hb, hbx⟩ := hx
        by_cases hkb : k = b.iata
        · exfalso
          apply hnodup.1
          rw [← h, hkb]
          exact List.mem_map_of_mem Airport.iata hb
        · rw [← hbx, if_neg hkb]
      rw [List.map_cons, List.sum_cons, if_pos h, List.sum_eq_zero hz]
      simp
    · rw [List.map_cons, List.sum_cons, if_neg h, Nat.zero_add]
      exact ih hnodup.2

/-- First hop: with unique IATA codes, a route record occurs in
`merge_df_1` at most as often as in the routes table. -/
theorem countP_merge_df_1_le (airports_df : List Airport)
    (routes_df : List Route)
    (hnodup : (airports_df.map Airport.iata).Nodup) (r : Route) :
    (merge_df_1 airports_df routes_df).countP
        (fun x => decide (x.route = some r))
      ≤ routes_df.countP (fun x => decide (x = r)) := by
  rw [merge_df_1, countP_flatMap]
  have hbound : ∀ a ∈ airports_df,
      ((let matching := routes_df.filter fun rr => rr.sourceAirport == a.iata;
        if matching.isEmpty then [(⟨a, none⟩ : Merge1Row)]
        else matching.map fun rr => ⟨a, some rr⟩).countP
          fun x => decide (x.route = some r))
      ≤ if r.sourceAirport = a.iata
          then routes_df.countP (fun x => decide (x = r)) else 0 := by
    intro a _
    dsimp only
    by_cases hm : (routes_df.filter fun rr => rr.sourceAirport == a.iata).isEmpty
    · rw [if_pos hm]
      simp
    · rw [if_neg hm, List.countP_map]
      have hcomp : (routes_df.filter fun rr => rr.sourceAirport == a.iata).countP
          ((fun x : Merge1Row => decide (x.route = some r)) ∘
            fun rr => (⟨a, some rr⟩ : Merge1Row))
          = routes_df.countP
            (fun rr => decide (rr = r) && (rr.sourceAirport == a.iata)) := by
        rw [List.countP_filter]
        apply List.countP_congr
        intro rr _
        simp [Function.comp]
      rw [hcomp]
      by_cases hsrc : r.sourceAirport = a.iata
      · rw [if_pos hsrc]
        exact List.countP_mono_left fun x _ h => ((Bool.and_eq_true _ _).mp h).1
      · rw [if_neg hsrc, Nat.le_zero, List.countP_eq_zero]
        intro x _ hx
        have h2 := (Bool.and_eq_true _ _).mp hx
        have h3 : x = r := of_decide_eq_true h2.1
        exact hsrc (by rw [← h3]; exact beq_iff_eq.mp h2.2)
  exact le_trans (List.sum_le_sum hbound)
    (sum_ite_iata_le _ r.sourceAirport airports_df hnodup)

/-- Second hop: with unique IATA codes, the destination join never
fans out a route record. -/
theorem countP_merge_df_2_le (m1 : List Merge1Row) (airports_df : List Airport)
    (hnodup : (airports_df.map Airport.iata).Nodup) (r : Route) :
    (merge_df_2 m1 airports_df).countP
        (fun row => decide (row.route = some r))
      ≤ m1.countP (fun x => decide (x.route = some r)) := by
  rw [merge_df_2, countP_flatMap, countP_eq_sum_map m1]
  apply List.sum_le_sum
  intro x _
  cases hx2 : x.route with
  | none =>
    simp
  | some r' =>
    dsimp only
    by_cases hm :
        (airports_df.filter fun a2 => a2.iata == r'.destinationAirport).isEmpty
    · rw [if_pos hm]
      by_cases hrr : r' = r
      · subst hrr; simp
      · simp [hrr]
    · rw [if_neg hm, List.countP_map]
      by_cases hrr : r' = r
      · subst hrr
        refine le_trans (le_trans (List.countP_le_length _)
          (filter_iata_length_le_one airports_df hnodup
            r'.destinationAirport)) ?_
        simp
      · have hz : (airports_df.filter
              fun a2 => a2.iata == r'.destinationAirport).countP
            ((fun row : Merge2Row => decide (row.route = some r)) ∘
              fun a2 => (⟨x.airport, some r', some a2⟩ : Merge2Row)) = 0 := by
          rw [List.countP_eq_zero]
          intro a2 _ ha2
          exact hrr ((Option.some.injEq _ _).mp (of_decide_eq_true ha2))
        rw [hz]
        exact Nat.zero_le _

/-- C7: under the precondition that IATA codes are unique keys of the
airports table, no (source, destination, equipment) route record occurs
more often in the merge output than in the input routes table; in
particular one route row yields at most one output row. -/
theorem C7_no_fanout (airports_df : List Airport) (routes_df : List Route)
    (hnodup : (airports_df.map Airport.iata).Nodup) (r : Route) :
    (merge_datasets airports_df routes_df).countP
        (fun row => decide (row.route = some r))
      ≤ routes_df.countP (fun x => decide (x = r)) := by
  exact le_trans (countP_filter_le _ _ _)
    (le_trans (countP_merge_df_2_le _ _ hnodup r)
      (countP_merge_df_1_le _ _ hnodup r))

theorem C7_witness :
    (exAirports.map Airport.iata).Nodup
    ∧ (merge_datasets exAirports exRoutes).countP
        (fun row => decide (row.route = some ⟨"KRK", "WAW", "738"⟩))
      ≤ exRoutes.countP (fun x => decide (x = ⟨"KRK", "WAW", "738"⟩)) :=
  ⟨by decide, C7_no_fanout exAirports exRoutes (by decide) ⟨"KRK", "WAW", "738"⟩⟩

end Adpro
